import Mathlib

/-
Verification development for the poe_api crate (src/lib.rs).

The development shallowly embeds the parts of src/lib.rs that the design
claims talk about: the error enum, the scope model with its wire-string
rendering and parser, the callback listener loop of
AuthorizationServer::get_authorization_code, the flow coordinator
PoEApi::get_token, the client-level cancellation flag set by
PoEApi::close_authorization_server, and the checked HTTP send used by
PoEApi::get_profile.

External I/O is represented by explicit inputs: each call of the listener
loop consumes one event of a list (a receive timeout together with the
value of the cancellation flag read at that poll, an incoming request
given by its percent-decoded query pairs together with the outcome of
responding to it, or a receive error), and HTTP responses are records
carrying the status code and the possible decodings of the body.
-/

namespace PoeApi

/-- The crate error enum (src/lib.rs, `enum Error`).  Payloads of wrapped
foreign errors are abstracted to strings; the variant structure is what the
claims are about. -/
inductive Error where
  | IoError (e : String)
  | ReqwestError (e : String)
  | ReqwestInvalidHeaderValue (e : String)
  | UrlParseError (e : String)
  | UninitializedFieldError (e : String)
  | PoEApiError (error errorDescription : String)
  | FailedToGetAuthorizationCode
  | Custom (msg : String)
  | BoxedError (e : String)
deriving DecidableEq

/-- The account scope enum (src/lib.rs, `enum PoEApiAccountScope`). -/
inductive PoEApiAccountScope where
  | Profile
  | Leagues
  | Stashes
  | Characters
  | LeagueAccounts
  | ItemFilter
deriving DecidableEq

/-- `PoEApiAccountScope::name` (src/lib.rs lines 132-143): the canonical
wire string of a scope. -/
def PoEApiAccountScope.name : PoEApiAccountScope → String
  | .Profile => "account:profile"
  | .Leagues => "account:leagues"
  | .Stashes => "account:stashes"
  | .Characters => "account:characters"
  | .LeagueAccounts => "account:league_accounts"
  | .ItemFilter => "account:item_filter"

/-- `ToString for PoEApiAccountScope` (src/lib.rs lines 174-178), which goes
through `AsRef<str>` to `name`. -/
def PoEApiAccountScope.toString (s : PoEApiAccountScope) : String :=
  s.name

/-- Fuel-indexed worker for Rust `str::trim_start_matches`: repeatedly
removes the pattern from the front while it is a prefix. -/
def trimStartMatchesAux : Nat → List Char → List Char → List Char
  | 0, _, s => s
  | Nat.succ n, pat, s =>
    if pat.isPrefixOf s then trimStartMatchesAux n pat (s.drop pat.length)
    else s

/-- Rust `str::trim_start_matches(pat)` on strings. -/
def trim_start_matches (s pat : String) : String :=
  ⟨trimStartMatchesAux s.data.length pat.data s.data⟩

/-- `FromStr for PoEApiAccountScope` (src/lib.rs lines 145-159): trims the
prefix "account::" from the input, then matches the remainder against the
bare scope names. -/
def PoEApiAccountScope.from_str (s : String) : Except Error PoEApiAccountScope :=
  let t := trim_start_matches s "account::"
  if t = "profile" then .ok .Profile
  else if t = "leagues" then .ok .Leagues
  else if t = "stashes" then .ok .Stashes
  else if t = "characters" then .ok .Characters
  else if t = "league_accounts" then .ok .LeagueAccounts
  else if t = "item_filter" then .ok .ItemFilter
  else .error (.Custom "Failed to parse account scope")

/-- The default success page (src/lib.rs, `CLOSE_HTML`). -/
def CLOSE_HTML : String :=
  "<!DOCTYPE html>\n<html lang=\"en\">\n<head>\n  <meta charset=\"UTF-8\">\n  <title>Better PoE Redirect</title>\n</head>\n<body>\nYou can close this page.\n</body>\n</html>"

/-- An HTTP response written back to the connected browser by the listener:
status code and body.  `tiny_http::Response::from_data` carries status 200;
the invalid branch attaches status 422 explicitly. -/
structure HttpResponse where
  status : Nat
  body : String
deriving DecidableEq

/-- One observable outcome of a `recv_timeout` call in the listener loop
(src/lib.rs line 300):
* `timeout closeFlag` — `Ok(None)`: no request arrived within the poll
  interval; `closeFlag` is the value of the client's `close_handle` read at
  this poll (src/lib.rs line 302);
* `request q respondErr` — `Ok(Some(request))` whose reconstructed URL has
  the percent-decoded query pairs `q` (in order), together with the outcome
  of `request.respond`: `none` when responding succeeds, `some io` when it
  fails with the I/O error `io`;
* `recvErr e` — `Err(e)`: the receive itself fails with I/O error `e`. -/
inductive Event where
  | timeout (closeFlag : Bool)
  | request (q : List (String × String)) (respondErr : Option String)
  | recvErr (e : String)

/-- Result of running the listener loop on a finite list of events:
either the function returned (`finished`), or all modeled events were
consumed and the loop is still waiting (`waiting`). -/
inductive LoopResult where
  | finished (r : Except Error String)
  | waiting

/-- `query.iter().find(|(key, _)| key == k).map(|(_, value)| value)`
(src/lib.rs lines 313-321): first value bound to a key in the decoded
query pairs. -/
def lookupQuery (key : String) (q : List (String × String)) : Option String :=
  (q.find? fun p => p.1 == key).map Prod.snd

/-- How the match at src/lib.rs lines 323-333 classifies one request:
`accept c` for the arm with both `state` and `code` present and
`state.secret() == query_state` (returning code `c`), `reject` for the
fallthrough arm. -/
inductive ReqAction where
  | accept (c : String)
  | reject
deriving DecidableEq

/-- The classification itself: both parameters present and the state
parameter equal to the expected secret, by exact string comparison. -/
def classifyRequest (secret : String) (q : List (String × String)) : ReqAction :=
  match lookupQuery "state" q, lookupQuery "code" q with
  | some qs, some qc => if secret == qs then .accept qc else .reject
  | _, _ => .reject

/-- `AuthorizationServer::get_authorization_code` (src/lib.rs lines
299-337), as a function of the expected CSRF secret, the configured
success page, and the list of receive events.  Returns the responses sent
to the browser, in order, and the loop outcome:
* a receive error exits the `while let` and the function returns the
  generic `FailedToGetAuthorizationCode` (line 336), discarding the error;
* a timeout returns `FailedToGetAuthorizationCode` when the close handle
  reads true, else continues (lines 301-307);
* an accepted request responds with the success page (status 200) and
  returns its code (lines 324-327); a rejected one responds 422
  "Invalid Query" and continues (lines 329-332); either respond failure
  propagates the I/O error via `?`. -/
def get_authorization_code (secret closeHtml : String) :
    List Event → List HttpResponse × LoopResult
  | [] => ([], .waiting)
  | .recvErr _ :: _ => ([], .finished (.error .FailedToGetAuthorizationCode))
  | .timeout closeFlag :: rest =>
    if closeFlag then ([], .finished (.error .FailedToGetAuthorizationCode))
    else get_authorization_code secret closeHtml rest
  | .request q respondErr :: rest =>
    match classifyRequest secret q, respondErr with
    | _, some io => ([], .finished (.error (.IoError io)))
    | .accept c, none => ([⟨200, closeHtml⟩], .finished (.ok c))
    | .reject, none =>
      let r := get_authorization_code secret closeHtml rest
      (⟨422, "Invalid Query"⟩ :: r.1, r.2)

/-- The bound on each blocking receive:
`Duration::from_millis(100)` at src/lib.rs line 300, in milliseconds. -/
def recvTimeoutMillis : Nat := 100

/-- Number of `recv_timeout` calls the loop performs on a given event list
before returning (or before exhausting the modeled events). -/
def pollsConsumed (secret : String) : List Event → Nat
  | [] => 0
  | .recvErr _ :: _ => 1
  | .timeout closeFlag :: rest =>
    if closeFlag then 1 else 1 + pollsConsumed secret rest
  | .request q respondErr :: rest =>
    match classifyRequest secret q, respondErr with
    | _, some _ => 1
    | .accept _, none => 1
    | .reject, none => 1 + pollsConsumed secret rest

/-- The client-level state relevant to the claims: the
`close_handle: AtomicBool` field of `AuthorizationServer` (src/lib.rs
lines 283-289).  The server handle and HTTP client carry no further state
the claims depend on. -/
structure PoEApiState where
  closeHandle : Bool
deriving DecidableEq

/-- `AuthorizationServer::new` initializes `close_handle` to false
(src/lib.rs line 295); `PoEApi::new` builds exactly one such server per
client (line 203). -/
def PoEApi.new : PoEApiState := ⟨false⟩

/-- `PoEApi::close_authorization_server` (src/lib.rs lines 237-239):
stores true into the client's close handle.  No code path ever stores
false again. -/
def close_authorization_server (_s : PoEApiState) : PoEApiState := ⟨true⟩

/-- The token response of a successful exchange (`BasicTokenResponse`),
opaque beyond its access token. -/
structure BasicTokenResponse where
  access_token : String
deriving DecidableEq

/-- Outcome of the `exchange_code(..).request_async(..)` call (src/lib.rs
lines 274-278): either a token, or a failure whose underlying oauth2 error
is abstracted to a string (network failure, provider rejection, expired
code alike). -/
inductive ExchangeOutcome where
  | success (t : BasicTokenResponse)
  | failure (reason : String)

/-- The effectful steps of `get_token` after the URL-presentation
callback, recorded so that theorems can state which steps a run reaches. -/
inductive FlowStep where
  | listenerWait
  | exchange
deriving DecidableEq

/-- Result of a `get_token` run: the returned value, or `blocked` when the
listener consumed every modeled event and is still waiting. -/
inductive FlowResult where
  | done (r : Except Error BasicTokenResponse)
  | blocked

/-- `PoEApi::get_token` (src/lib.rs lines 241-280), from the point at
which the authorization URL has been built.  (Client construction at
lines 248-254 parses only the constant endpoint URLs and the already
validated redirect URL, so it cannot fail; PKCE and CSRF generation at
lines 256-266 only feed the URL and the expected secret, which enter here
as `secret`.)  Inputs: the result of `callback(auth_url).into()`, the
expected CSRF secret and configured success page, the listener's receive
events, and the exchange outcome.  Returns the flow result and the list
of steps reached:
* a callback error aborts via `?` at line 268, before any listener call;
* a listener error propagates via `?` at line 272;
* an exchange failure is mapped to `FailedToGetAuthorizationCode` by
  `map_err` at line 279, whatever its reason. -/
def get_token (callbackResult : Except Error Unit) (secret closeHtml : String)
    (events : List Event) (ex : ExchangeOutcome) :
    FlowResult × List FlowStep :=
  match callbackResult with
  | .error e => (.done (.error e), [])
  | .ok _ =>
    match (get_authorization_code secret closeHtml events).2 with
    | .waiting => (.blocked, [.listenerWait])
    | .finished (.error e) => (.done (.error e), [.listenerWait])
    | .finished (.ok _) =>
      match ex with
      | .success t => (.done (.ok t), [.listenerWait, .exchange])
      | .failure _ =>
        (.done (.error .FailedToGetAuthorizationCode), [.listenerWait, .exchange])

/-- A listener receive event not yet annotated with the close flag: used
to model a flow during which no concurrent `close_authorization_server`
call happens, so every poll reads the same client flag. -/
inductive RawEvent where
  | timeout
  | request (q : List (String × String)) (respondErr : Option String)
  | recvErr (e : String)

/-- Annotate raw events with the flag each timeout poll reads: the
client's current `close_handle`. -/
def flowEvents (s : PoEApiState) : List RawEvent → List Event :=
  List.map fun
    | .timeout => .timeout s.closeHandle
    | .request q respondErr => .request q respondErr
    | .recvErr e => .recvErr e

/-- A whole `get_token` invocation against a client in state `s`, with no
concurrent close call during the run: the listener polls read
`s.closeHandle`, and the run leaves the client state unchanged (nothing
in `get_token` writes `close_handle`). -/
def get_token_run (s : PoEApiState) (callbackResult : Except Error Unit)
    (secret closeHtml : String) (raw : List RawEvent) (ex : ExchangeOutcome) :
    (FlowResult × List FlowStep) × PoEApiState :=
  (get_token callbackResult secret closeHtml (flowEvents s raw) ex, s)

/-- The provider error body `PoEApiError` (src/lib.rs lines 34-38). -/
structure PoEApiErrorBody where
  error : String
  error_description : String
deriving DecidableEq

/-- `ProfileGuildOrTwitch` (src/lib.rs lines 350-353). -/
structure ProfileGuildOrTwitch where
  name : String
deriving DecidableEq

/-- `Profile` (src/lib.rs lines 340-348). -/
structure Profile where
  uuid : String
  name : String
  realm : Option String
  locale : Option String
  guild : Option ProfileGuildOrTwitch
  twitch : Option ProfileGuildOrTwitch
deriving DecidableEq

/-- An HTTP response received from the remote API, as the checked send
observes it: status code, and the outcomes of decoding the body as a
`PoEApiError` and as a `Profile` (`none` when deserialization fails). -/
structure ApiResponse where
  status : Nat
  asError : Option PoEApiErrorBody
  asProfile : Option Profile
deriving DecidableEq

/-- `reqwest::StatusCode::is_client_error`: 400..=499. -/
def statusIsClientError (s : Nat) : Bool := 400 ≤ s && s < 500

/-- `reqwest::StatusCode::is_server_error`: 500..=599. -/
def statusIsServerError (s : Nat) : Bool := 500 ≤ s && s < 600

/-- `RequestBuilderExt2::send_checked` (src/lib.rs lines 370-384).  Input:
the transport outcome of `self.send()` (a transport error, or a
response).  On a client- or server-error status the body is decoded as a
`PoEApiError` and returned as the typed `Error::PoEApiError`; a body that
fails to decode propagates the reqwest decode error via `?`. -/
def send_checked (r : Except Error ApiResponse) : Except Error ApiResponse :=
  match r with
  | .error e => .error e
  | .ok response =>
    if statusIsClientError response.status || statusIsServerError response.status then
      match response.asError with
      | some e => .error (.PoEApiError e.error e.error_description)
      | none => .error (.ReqwestError "error decoding response body")
    else .ok response

/-- `PoEApi::get_profile` (src/lib.rs lines 226-235): checked send, then
decode the body as `Profile` (a decode failure propagates as a reqwest
error). -/
def get_profile (r : Except Error ApiResponse) : Except Error Profile :=
  match send_checked r with
  | .error e => .error e
  | .ok resp =>
    match resp.asProfile with
    | some p => .ok p
    | none => .error (.ReqwestError "error decoding response body")

/-- A request without a matching state-and-code pair (state parameter
absent or different from the secret, or code parameter absent) falls into
the fallthrough arm of the match at src/lib.rs line 329. -/
theorem classifyRequest_eq_reject (secret : String) (q : List (String × String))
    (h : lookupQuery "state" q ≠ some secret ∨ lookupQuery "code" q = none) :
    classifyRequest secret q = ReqAction.reject := by
  unfold classifyRequest
  cases hst : lookupQuery "state" q with
  | none => cases lookupQuery "code" q <;> rfl
  | some qs =>
    cases hcq : lookupQuery "code" q with
    | none => rfl
    | some qc =>
      have hne : secret ≠ qs := by
        rcases h with h | h
        · intro he
          exact h (by rw [hst, he])
        · rw [hcq] at h
          cases h
      have hb : (secret == qs) = false := by
        simp [hne]
      simp [hb]

/-- Claim C1: a request whose decoded query carries a state parameter
equal to the expected CSRF secret (exact string comparison) and a code
parameter, and to which the listener responds successfully, is answered
with HTTP status 200 carrying the configured success HTML, and the loop
returns exactly that code value at once — the result does not depend on
any later event, so at most one authorization code is returned per wait. -/
theorem get_authorization_code_accepts (secret closeHtml : String)
    (q : List (String × String)) (rest : List Event) (c : String)
    (hs : lookupQuery "state" q = some secret)
    (hc : lookupQuery "code" q = some c) :
    get_authorization_code secret closeHtml (Event.request q none :: rest)
      = ([⟨200, closeHtml⟩], LoopResult.finished (Except.ok c)) := by
  have hcl : classifyRequest secret q = ReqAction.accept c := by
    unfold classifyRequest
    rw [hs, hc]
    simp
  simp [get_authorization_code, hcl]

/-- Witness for C1 at the concrete request of end-to-end scenario 1. -/
theorem get_authorization_code_accepts_witness :
    get_authorization_code "S" CLOSE_HTML
        [Event.request [("state", "S"), ("code", "ABC")] none]
      = ([⟨200, CLOSE_HTML⟩], LoopResult.finished (Except.ok "ABC")) :=
  get_authorization_code_accepts "S" CLOSE_HTML
    [("state", "S"), ("code", "ABC")] [] "ABC" rfl rfl

/-- Claim C2: a request without a matching state-and-code pair (wrong
state, missing code, or missing state), answered successfully, receives
HTTP status 422 with body "Invalid Query", and the loop continues with
the remaining events: its outcome is exactly the outcome on the rest, so
such a request never terminates the wait by itself. -/
theorem get_authorization_code_rejects (secret closeHtml : String)
    (q : List (String × String)) (rest : List Event)
    (h : lookupQuery "state" q ≠ some secret ∨ lookupQuery "code" q = none) :
    get_authorization_code secret closeHtml (Event.request q none :: rest)
      = (⟨422, "Invalid Query"⟩ :: (get_authorization_code secret closeHtml rest).1,
         (get_authorization_code secret closeHtml rest).2) := by
  have hcl : classifyRequest secret q = ReqAction.reject :=
    classifyRequest_eq_reject secret q h
  simp [get_authorization_code, hcl]

/-- Witness for C2 at a concrete wrong-state request followed by no
further event: the listener answers 422 and is still waiting. -/
theorem get_authorization_code_rejects_witness :
    get_authorization_code "S" CLOSE_HTML
        [Event.request [("state", "WRONG"), ("code", "ABC")] none]
      = ([⟨422, "Invalid Query"⟩], LoopResult.waiting) :=
  get_authorization_code_rejects "S" CLOSE_HTML
    [("state", "WRONG"), ("code", "ABC")] [] (Or.inl (by decide))

/-- Claim C3: with the cancellation flag set by close_authorization_server
and no request arriving, the first poll observes the flag and the wait
returns the cancellation failure (the error value produced at src/lib.rs
line 303) after exactly one receive call, whose blocking bound is the
100 ms of recv_timeout — so termination happens within one poll interval. -/
theorem get_authorization_code_cancelled (s : PoEApiState)
    (secret closeHtml : String) (rest : List Event) :
    get_authorization_code secret closeHtml
        (Event.timeout (close_authorization_server s).closeHandle :: rest)
      = ([], LoopResult.finished (Except.error Error.FailedToGetAuthorizationCode))
    ∧ pollsConsumed secret
        (Event.timeout (close_authorization_server s).closeHandle :: rest) = 1
    ∧ recvTimeoutMillis = 100 :=
  ⟨rfl, rfl, rfl⟩

/-- Counterexample to claim C4: a run cancelled during the listener wait
and a run whose token exchange is rejected by the provider return the
same error value, `Error.FailedToGetAuthorizationCode` — the caller
cannot distinguish cancellation from token-exchange failure by the
returned error. -/
theorem cancel_vs_exchange_failure_same_error :
    (get_token (Except.ok ()) "S" CLOSE_HTML [Event.timeout true]
        (ExchangeOutcome.success ⟨"tok"⟩)).1
      = FlowResult.done (Except.error Error.FailedToGetAuthorizationCode)
    ∧ (get_token (Except.ok ()) "S" CLOSE_HTML
          [Event.request [("state", "S"), ("code", "C")] none]
          (ExchangeOutcome.failure "provider rejected the code")).1
      = FlowResult.done (Except.error Error.FailedToGetAuthorizationCode) :=
  ⟨rfl, rfl⟩

/-- Claim C4 as amended: cancellation and token-exchange failure both
surface as the one generic value `Error.FailedToGetAuthorizationCode`,
so they are mutually indistinguishable; provider errors and listener
transport errors live in distinct variants and remain distinguishable
from cancellation. -/
theorem error_classes_partially_distinguishable
    (secret closeHtml c reason io e d : String) (rest : List Event)
    (t : BasicTokenResponse) :
    (get_token (Except.ok ()) secret closeHtml (Event.timeout true :: rest)
        (ExchangeOutcome.success t)).1
      = FlowResult.done (Except.error Error.FailedToGetAuthorizationCode)
    ∧ (get_token (Except.ok ()) secret closeHtml
          [Event.request [("state", secret), ("code", c)] none]
          (ExchangeOutcome.failure reason)).1
      = FlowResult.done (Except.error Error.FailedToGetAuthorizationCode)
    ∧ Error.PoEApiError e d ≠ Error.FailedToGetAuthorizationCode
    ∧ Error.IoError io ≠ Error.FailedToGetAuthorizationCode := by
  refine ⟨rfl, ?_, ?_, ?_⟩
  · have hcl : classifyRequest secret [("state", secret), ("code", c)]
        = ReqAction.accept c := by
      unfold classifyRequest
      rw [show lookupQuery "state" [("state", secret), ("code", c)] = some secret from rfl,
          show lookupQuery "code" [("state", secret), ("code", c)] = some c from rfl]
      simp
    simp [get_token, get_authorization_code, hcl]
  · intro h
    exact nomatch h
  · intro h
    exact nomatch h

/-- Claim C5: when the URL-presentation callback reports failure,
get_token returns exactly that error, and neither the listener wait nor
the token exchange is among the steps the run reaches. -/
theorem get_token_callback_failure (e : Error) (secret closeHtml : String)
    (events : List Event) (ex : ExchangeOutcome) :
    get_token (Except.error e) secret closeHtml events ex
        = (FlowResult.done (Except.error e), [])
    ∧ FlowStep.listenerWait ∉ (get_token (Except.error e) secret closeHtml events ex).2
    ∧ FlowStep.exchange ∉ (get_token (Except.error e) secret closeHtml events ex).2 :=
  ⟨rfl, by simp [get_token], by simp [get_token]⟩

/-- Claim C6: whenever the listener wait succeeds with some code and the
exchange step fails — whatever the underlying reason — get_token returns
the single generic failure `Error.FailedToGetAuthorizationCode`,
discarding the reason. -/
theorem get_token_exchange_failure_generic (secret closeHtml c reason : String)
    (events : List Event)
    (h : (get_authorization_code secret closeHtml events).2
          = LoopResult.finished (Except.ok c)) :
    (get_token (Except.ok ()) secret closeHtml events
        (ExchangeOutcome.failure reason)).1
      = FlowResult.done (Except.error Error.FailedToGetAuthorizationCode) := by
  simp [get_token, h]

/-- Witness for C6 at a concrete accepted callback and a concrete
exchange failure. -/
theorem get_token_exchange_failure_generic_witness :
    (get_token (Except.ok ()) "S" CLOSE_HTML
        [Event.request [("state", "S"), ("code", "ABC")] none]
        (ExchangeOutcome.failure "expired code")).1
      = FlowResult.done (Except.error Error.FailedToGetAuthorizationCode) :=
  get_token_exchange_failure_generic "S" CLOSE_HTML "ABC" "expired code"
    [Event.request [("state", "S"), ("code", "ABC")] none] rfl

/-- Counterexample to claim C7: when receiving itself fails, the loop
exits the `while let` and returns the generic
`Error.FailedToGetAuthorizationCode` (src/lib.rs line 336), which is not
the transport error surfaced verbatim. -/
theorem recv_error_collapsed_to_generic :
    get_authorization_code "S" CLOSE_HTML [Event.recvErr "connection reset"]
      = ([], LoopResult.finished (Except.error Error.FailedToGetAuthorizationCode))
    ∧ Error.FailedToGetAuthorizationCode ≠ Error.IoError "connection reset" :=
  ⟨rfl, fun h => nomatch h⟩

/-- Claim C7 as amended: a failure to respond to a request is surfaced
immediately and verbatim as that I/O error (whatever the request
contained), while a failure to receive terminates immediately with the
generic `Error.FailedToGetAuthorizationCode`; neither is retried — the
result does not depend on later events. -/
theorem transport_error_surfacing (secret closeHtml io : String)
    (q : List (String × String)) (rest : List Event) :
    get_authorization_code secret closeHtml (Event.request q (some io) :: rest)
      = ([], LoopResult.finished (Except.error (Error.IoError io)))
    ∧ get_authorization_code secret closeHtml (Event.recvErr io :: rest)
      = ([], LoopResult.finished (Except.error Error.FailedToGetAuthorizationCode)) := by
  constructor
  · cases hcl : classifyRequest secret q <;> simp [get_authorization_code, hcl]
  · rfl

/-- Claim C8: a profile fetch whose response has a client- or
server-error status and whose body decodes as the provider error object
with code `e` and description `d` returns the typed
`Error.PoEApiError e d`, not a generic transport error. -/
theorem get_profile_provider_error (resp : ApiResponse) (e d : String)
    (hst : statusIsClientError resp.status = true
        ∨ statusIsServerError resp.status = true)
    (hbody : resp.asError = some ⟨e, d⟩) :
    get_profile (Except.ok resp) = Except.error (Error.PoEApiError e d) := by
  have hcond : (statusIsClientError resp.status
      || statusIsServerError resp.status) = true := by
    rcases hst with h | h <;> simp [h]
  simp [get_profile, send_checked, hcond, hbody]

/-- Witness for C8 at end-to-end scenario 4: an HTTP 401 response whose
body is the invalid_token/expired provider error. -/
theorem get_profile_provider_error_witness :
    get_profile (Except.ok ⟨401, some ⟨"invalid_token", "expired"⟩, none⟩)
      = Except.error (Error.PoEApiError "invalid_token" "expired") :=
  get_profile_provider_error ⟨401, some ⟨"invalid_token", "expired"⟩, none⟩
    "invalid_token" "expired" (Or.inl rfl) rfl

/-- Counterexample to claim C9: after close_authorization_server was
called during an earlier flow, a later get_token run on the same client
does not behave like a run on a fresh client: on the same inputs (one
poll timeout, no request) the fresh client is still waiting, while the
stale client fails at its first poll with the cancellation error —
the flag outlives the flow. -/
theorem stale_cancellation_flag_affects_next_flow :
    (get_token_run (close_authorization_server PoEApi.new) (Except.ok ()) "S"
        CLOSE_HTML [RawEvent.timeout] (ExchangeOutcome.failure "unreached")).1.1
      = FlowResult.done (Except.error Error.FailedToGetAuthorizationCode)
    ∧ (get_token_run PoEApi.new (Except.ok ()) "S" CLOSE_HTML
        [RawEvent.timeout] (ExchangeOutcome.failure "unreached")).1.1
      = FlowResult.blocked :=
  ⟨rfl, rfl⟩

/-- Claim C9 as amended: the cancellation flag is owned by the client,
not by one flow — get_token leaves the client state (hence the flag)
unchanged, close_authorization_server sets it and nothing ever clears
it, so every later flow on that client fails with the cancellation error
at its first poll timeout instead of behaving like a first invocation. -/
theorem close_handle_persists_across_flows (s : PoEApiState)
    (callbackResult : Except Error Unit) (secret closeHtml : String)
    (raw rest : List RawEvent) (ex ex2 : ExchangeOutcome) :
    (get_token_run s callbackResult secret closeHtml raw ex).2 = s
    ∧ (close_authorization_server s).closeHandle = true
    ∧ (get_token_run (close_authorization_server s) (Except.ok ()) secret
          closeHtml (RawEvent.timeout :: rest) ex2).1.1
      = FlowResult.done (Except.error Error.FailedToGetAuthorizationCode) :=
  ⟨rfl, rfl, rfl⟩

/-- Claim C10 (code bug): for every account scope, parsing its rendered
canonical wire string fails.  The parser trims the prefix "account::"
(two colons), but name renders "account:" with a single colon, so the
trim never fires and the remaining string matches no bare scope name:
from_str(s.to_string()) is the Custom parse error for every scope s,
refuting the round-trip. -/
theorem scope_round_trip_fails (sc : PoEApiAccountScope) :
    PoEApiAccountScope.from_str sc.toString
      = Except.error (Error.Custom "Failed to parse account scope") := by
  cases sc <;> rfl

end PoeApi
